import Mathlib

/-!
Verification of the spreadsheet-column translator (src/HTML.py).

The development shallowly embeds the two core functions of the repository,
`load_glossary` and `translate_column`, together with the fragment of `main`
that wires them together.  External effects are made explicit:

* the result of `json.loads` is passed in as an `Except String JsonValue`;
* the remote chat-completion endpoint is passed in as an oracle
  `Api : Nat → ChatRequest → Except String String` (per row index, either the
  text of the first completion choice or the message of the raised exception);
* Streamlit side effects (progress bar, warnings, success banner) are
  collected as explicit traces in the returned structures;
* pandas DataFrames are modelled as a header row plus a list of rows of
  optional-string cells (a `none` cell models a pandas NA value), indexed
  positionally, which matches the default RangeIndex produced by
  `pd.read_excel` in `main`.

Numbers that appear as Python floats (the sampling parameters and the
progress fractions) are modelled as exact rationals.
-/

/-- Values produced by `json.loads`: JSON documents with integer numerics. -/
inductive JsonValue where
  | null : JsonValue
  | bool (b : Bool) : JsonValue
  | num (n : Int) : JsonValue
  | str (s : String) : JsonValue
  | arr (xs : List JsonValue) : JsonValue
  | obj (fields : List (String × JsonValue)) : JsonValue

/-- True exactly when the parsed value is a Python dict (`isinstance(_, dict)`). -/
def JsonValue.isDict : JsonValue → Bool
  | .obj _ => true
  | _ => false

/-- Python exceptions relevant to `load_glossary`, by class and message
(`str(e)` of the exception). `json.JSONDecodeError` is a subclass of
`ValueError`, which is a subclass of `Exception`; the classes are kept
separate here because the two `except` clauses of `load_glossary`
discriminate on them. -/
inductive PyErr where
  | jsonDecodeError (msg : String) : PyErr
  | valueError (msg : String) : PyErr
  | exception (msg : String) : PyErr
deriving DecidableEq

/-- Message carried by an exception, as `str(e)` would render it. -/
def PyErr.msg : PyErr → String
  | .jsonDecodeError m => m
  | .valueError m => m
  | .exception m => m

/-- Message of the `ValueError` raised at line 15 of src/HTML.py when the
parsed glossary is not a dict. -/
def shapeErrMsg : String := "术语表JSON必须是键值对字典格式（键=日文，值=英文）"

/-- Message of the `ValueError` raised at line 19 of src/HTML.py when the
content is not valid JSON. -/
def formatErrMsg : String := "术语表不是合法的JSON格式，请检查文件内容"

/-- Wrapping applied by the blanket handler at line 21 of src/HTML.py:
`Exception(f"读取术语表失败：-str e-")`. -/
def genericWrap (m : String) : String := "读取术语表失败：" ++ m

/-- Successful outcome of `load_glossary`: the parsed mapping returned
unchanged, together with the `st.success` banner reporting the rule count
(line 16 of src/HTML.py). -/
structure LoadResult where
  glossary : List (String × JsonValue)
  successMsg : String

/-- Body of the `try` block of `load_glossary` (lines 13-17 of src/HTML.py),
applied to the outcome of `json.loads`.  A parse failure is the pending
`json.JSONDecodeError`; a parsed non-dict raises a `ValueError` with
`shapeErrMsg`; a parsed dict is returned unchanged with its rule count
reported. -/
def load_glossary_tryBody (json_loads_result : Except String JsonValue) :
    Except PyErr LoadResult :=
  match json_loads_result with
  | .error m => .error (.jsonDecodeError m)
  | .ok v =>
    match v with
    | .obj fields =>
        .ok ⟨fields, "✅ 成功加载术语表，共" ++ toString fields.length ++ "个翻译规则"⟩
    | _ => .error (.valueError shapeErrMsg)

/-- The two `except` clauses of `load_glossary` (lines 18-21 of src/HTML.py):
`except json.JSONDecodeError` raises `ValueError(formatErrMsg)`, and the
blanket `except Exception as e` re-raises `Exception(genericWrap (str e))`.
Note the blanket clause also catches the `ValueError` raised inside the
`try` body for a non-dict glossary. -/
def handleExcept {α : Type} : Except PyErr α → Except PyErr α
  | .ok a => .ok a
  | .error (.jsonDecodeError _) => .error (.valueError formatErrMsg)
  | .error (.valueError m) => .error (.exception (genericWrap m))
  | .error (.exception m) => .error (.exception (genericWrap m))

/-- Embedding of `load_glossary` (lines 10-21 of src/HTML.py) as a function of
the outcome of `json.loads` on the uploaded content. -/
def load_glossary (json_loads_result : Except String JsonValue) :
    Except PyErr LoadResult :=
  handleExcept (load_glossary_tryBody json_loads_result)

/-- A pandas cell restricted to what the program observes: `none` models a
missing value (`pd.isna` is true), `some s` a value whose `str()` is `s`. -/
abbrev Cell := Option String

/-- First index of a column name in a header list: the position pandas uses
for a label lookup when labels are unique, and in general the first
occurrence.  Returns the length when the name is absent. -/
def colIdx : List String → String → Nat
  | [], _ => 0
  | c :: rest, x => if c = x then 0 else colIdx rest x + 1

/-- A pandas DataFrame with a default RangeIndex: a header and a list of rows,
each row holding one cell per header entry. -/
structure DataFrame where
  cols : List String
  rows : List (List Cell)
deriving DecidableEq

/-- Well-formedness of a table: every row has one cell per column. -/
def DataFrame.WF (df : DataFrame) : Prop :=
  ∀ r ∈ df.rows, r.length = df.cols.length

instance (df : DataFrame) : Decidable df.WF := by
  unfold DataFrame.WF; infer_instance

/-- Cell at positional row `i` and column label `c`; out-of-range reads give
`none`.  Embeds `row[c]` and `df.at[i, c]` reads for tables whose index is
the default RangeIndex. -/
def DataFrame.cell (df : DataFrame) (i : Nat) (c : String) : Cell :=
  match df.rows[i]? with
  | none => none
  | some r => r.getD (colIdx df.cols c) none

/-- Embeds the pandas column assignment `df[c] = v` with a scalar `v`: when
the label exists the column is overwritten in place, otherwise a new column
is appended on the right. -/
def DataFrame.setCol (df : DataFrame) (c : String) (v : Cell) : DataFrame :=
  if c ∈ df.cols then
    ⟨df.cols, df.rows.map (fun r => r.set (colIdx df.cols c) v)⟩
  else
    ⟨df.cols ++ [c], df.rows.map (fun r => r ++ [v])⟩

/-- Embeds the pandas scalar store `df.at[i, c] = v` at positional row `i`. -/
def DataFrame.setCell (df : DataFrame) (i : Nat) (c : String) (v : Cell) :
    DataFrame :=
  match df.rows[i]? with
  | none => df
  | some r => ⟨df.cols, df.rows.set i (r.set (colIdx df.cols c) v)⟩

/-- Python slicing `s[:n]`: the first `n` characters (code points). -/
def pyTake (n : Nat) (s : String) : String := String.mk (s.data.take n)

/-- Python `str.strip()`: drop leading and trailing whitespace characters
(modelled with the ASCII whitespace class over code points). -/
def pyStrip (s : String) : String :=
  String.mk
    (((s.data.dropWhile Char.isWhitespace).reverse.dropWhile
      Char.isWhitespace).reverse)

/-- The blank test of line 52 of src/HTML.py:
`pd.isna(original) or str(original).strip() == ""`. -/
def pyIsBlank : Cell → Bool
  | none => true
  | some s => pyStrip s == ""

/-- Rendering `str(original)` of a cell inside an f-string; a missing value
prints as the float NaN does (that branch is unreachable after the blank
test). -/
def cellStr : Cell → String
  | none => "nan"
  | some s => s

/-- One message of the chat request (a `role`/`content` pair). -/
structure Message where
  role : String
  content : String
deriving DecidableEq

/-- The request sent by `client.chat.completions.create` (lines 60-68 of
src/HTML.py): model identifier, messages, and the fixed sampling
parameters.  The float literals 0.3 and 0.5 are modelled exactly. -/
structure ChatRequest where
  model : String
  messages : List Message
  temperature : ℚ
  top_p : ℚ
deriving DecidableEq

/-- The remote endpoint as an oracle: given the row index and the request, it
returns either the content of the first completion choice or the message
of the exception the call raised. -/
abbrev Api := Nat → ChatRequest → Except String String

/-- Joined glossary rules (line 30 of src/HTML.py):
`"；".join(f"-k-：-v-" for k, v in glossary.items())`, with the insertion
order of the dict preserved. -/
def glossary_str (glossary : List (String × String)) : String :=
  String.intercalate "；" (glossary.map (fun kv => kv.1 ++ "：" ++ kv.2))

/-- The system prompt (lines 31-37 of src/HTML.py), with the adjacent string
literals concatenated as Python does. -/
def sys_prompt (glossary : List (String × String)) : String :=
  "你是一名香港无印良品的電商翻譯專家，嚴格輸出英文，禁用簡體字，使用英文标点符号，保留品牌/型號原文。\n【翻譯強制規則】必須嚴格遵循以下術語表進行翻譯，術語表中的日文原文對應固定英文翻译，全文保持一致：\n"
    ++ glossary_str glossary ++ "\n"
    ++ "若原文未在術語表中，請按香港無印良品電商習慣翻譯，確保語氣正式、符合當地用詞習慣。"

/-- The per-row user prompt (line 57 of src/HTML.py). -/
def user_prompt (original : Cell) : String :=
  "日文原文：" ++ cellStr original ++ "\n香港英文翻譯："

/-- The request built for one row: two messages (system then user) and the
fixed sampling parameters temperature 0.3, top_p 0.5. -/
def rowRequest (sys model : String) (original : Cell) : ChatRequest :=
  ⟨model, [⟨"system", sys⟩, ⟨"user", user_prompt original⟩], 3/10, 1/2⟩

/-- What happened to one row, as observable from the Streamlit trace: skipped
without any remote call, translated (carrying the single request issued and
the raw response), or failed (carrying the request, the exception message
and the `st.warning` text of line 74). -/
inductive RowOutcome where
  | skipped : RowOutcome
  | translated (req : ChatRequest) (content : String) : RowOutcome
  | failed (req : ChatRequest) (errMsg : String) (warning : String) : RowOutcome
deriving DecidableEq

/-- The request a row outcome carries, if any: `skipped` issued no call. -/
def RowOutcome.request? : RowOutcome → Option ChatRequest
  | .skipped => none
  | .translated req _ => some req
  | .failed req _ _ => some req

/-- The value written into the destination cell of one row, and the outcome
of the row, as a function of the source cell (lines 52-74 of src/HTML.py).
Blank cells are skipped with an empty string; otherwise the remote call is
issued and either the trimmed first choice or the `[ERROR: ...]` marker
(message truncated to 200 characters) is written, with the warning message
truncated to 100 characters. -/
def rowCompute (sys model : String) (idx : Nat)
    (call : ChatRequest → Except String String) (original : Cell) :
    String × RowOutcome :=
  if pyIsBlank original then
    ("", RowOutcome.skipped)
  else
    let req := rowRequest sys model original
    match call req with
    | .ok content => (pyStrip content, RowOutcome.translated req content)
    | .error e =>
        ("[ERROR: " ++ pyTake 200 e ++ "]",
         RowOutcome.failed req e ("⚠️ 行 " ++ toString idx ++ " 翻译失败: " ++ pyTake 100 e))

/-- One iteration of the loop of lines 49-77 of src/HTML.py: read the source
cell of row `idx`, compute the destination value and outcome, and store the
value at `df.at[idx, new_col]`. -/
def translateRow (sys col_name new_col model : String) (api : Api) (idx : Nat)
    (d : DataFrame) : DataFrame × RowOutcome :=
  let r := rowCompute sys model idx (api idx) (d.cell idx col_name)
  (d.setCell idx new_col (some r.1), r.2)

/-- The loop of lines 49-77 of src/HTML.py over a list of row indices,
threading the table and collecting the outcomes and the progress fractions
`(idx + 1) / total_rows` reported after every row (once per row on every
branch: the skip branch reports at line 54 and continues, the other
branches at line 77). -/
def translateLoop (sys col_name new_col model : String) (api : Api)
    (total_rows : Nat) :
    List Nat → DataFrame → DataFrame × List RowOutcome × List ℚ
  | [], d => (d, [], [])
  | idx :: rest, d =>
    let r := translateRow sys col_name new_col model api idx d
    let t := translateLoop sys col_name new_col model api total_rows rest r.1
    (t.1, r.2 :: t.2.1, (((idx : ℚ) + 1) / (total_rows : ℚ)) :: t.2.2)

/-- Result of `translate_column`: the returned table plus the traces of the
Streamlit side effects (per-row outcomes with requests and warnings, and
the progress fractions reported). -/
structure RunResult where
  df : DataFrame
  outcomes : List RowOutcome
  progress : List ℚ
deriving DecidableEq

/-- Embedding of `translate_column` (lines 24-80 of src/HTML.py): create the
destination column `col_name + "_" + target_lang` initialised to the empty
string, build the system prompt once, then run the per-row loop over the
positional indices `0, ..., len(df) - 1` (the order `df.iterrows()` yields
under the default RangeIndex). -/
def translate_column (df : DataFrame) (col_name : String)
    (glossary : List (String × String)) (target_lang model : String)
    (api : Api) : RunResult :=
  let new_col := col_name ++ "_" ++ target_lang
  let df0 := df.setCol new_col (some "")
  let sys := sys_prompt glossary
  let total_rows := df0.rows.length
  let t := translateLoop sys col_name new_col model api total_rows
    (List.range total_rows) df0
  ⟨t.1, t.2.1, t.2.2⟩

/-- Embedding of the `main` flow from the click handler (lines 132-148 of
src/HTML.py), restricted to the part the claims are about: read the
glossary, then translate; any exception raised on the way is caught by the
`except` at line 173 and shown as an error banner, and nothing after the
raising point runs. -/
inductive MainOutcome where
  | success (res : RunResult) : MainOutcome
  | errorBanner (msg : String) : MainOutcome

/-- Rendering `str(v)` of a parsed JSON value, as the f-string of line 30 of
src/HTML.py applies it to glossary values.  Container values print through
`repr` of their elements; string escapes inside `repr` are not modelled. -/
def pyRepr : JsonValue → String
  | .null => "None"
  | .bool b => cond b "True" "False"
  | .num n => toString n
  | .str s => "\x27" ++ s ++ "\x27"
  | .arr xs => "[" ++ String.intercalate ", " (xs.attach.map (fun x => pyRepr x.1)) ++ "]"
  | .obj fs => "\x7b" ++ String.intercalate ", "
      (fs.attach.map (fun kv => "\x27" ++ kv.1.1 ++ "\x27: " ++ pyRepr kv.1.2)) ++ "\x7d"
decreasing_by
  · have := List.sizeOf_lt_of_mem x.2; simp at this ⊢; omega
  · have h1 := List.sizeOf_lt_of_mem kv.2
    have h2 : sizeOf kv.1.2 < sizeOf kv.1 := by
      obtain ⟨a, b⟩ := kv.1; simp
    simp at h1 h2 ⊢; omega

/-- Top-level `str()` of a parsed JSON value: a string prints bare, anything
else as `pyRepr`. -/
def pyStr : JsonValue → String
  | .str s => s
  | v => pyRepr v

/-- The glossary as `translate_column` consumes it: the loaded dict with the
values stringified the way the f-string of line 30 renders them. -/
def glossaryToPairs (g : List (String × JsonValue)) : List (String × String) :=
  g.map (fun kv => (kv.1, pyStr kv.2))

/-- The body of the `try` of `main` (lines 133-148 of src/HTML.py) up to and
including the call of `translate_column`, with the top-level handler of
line 174 (`st.error(f"❌ 处理失败：-str e-")`). -/
def main_translate (json_loads_result : Except String JsonValue)
    (df : DataFrame) (col_name model : String) (api : Api) : MainOutcome :=
  match load_glossary json_loads_result with
  | .error e => .errorBanner ("❌ 处理失败：" ++ e.msg)
  | .ok r =>
      .success (translate_column df col_name (glossaryToPairs r.glossary)
        "translated" model api)

/-- Requests issued by the remote client over a whole `main` run: none at all
when the run aborted with an error banner before the loop started. -/
def mainRequests : MainOutcome → List (Option ChatRequest)
  | .errorBanner _ => []
  | .success r => r.outcomes.map RowOutcome.request?

theorem getq_set_self {α : Type} (l : List α) (i : Nat) (a : α) :
    (l.set i a)[i]? = (l[i]?).map fun _ => a := by
  induction l generalizing i with
  | nil => simp
  | cons hd tl ih => cases i <;> simp [List.set, ih]

theorem getD_append_left {α : Type} (l l2 : List α) (j : Nat) (d : α)
    (h : j < l.length) : (l ++ l2).getD j d = l.getD j d := by
  induction l generalizing j with
  | nil => simp at h
  | cons hd tl ih =>
    cases j with
    | zero => simp
    | succ j =>
      simp only [List.cons_append, List.getD_cons_succ]
      exact ih j (by simpa using h)

theorem getD_append_len {α : Type} (l : List α) (a d : α) :
    (l ++ [a]).getD l.length d = a := by
  induction l with
  | nil => simp
  | cons hd tl ih => simp [ih]

theorem set_append_len {α : Type} (l : List α) (a b : α) :
    (l ++ [a]).set l.length b = l ++ [b] := by
  induction l with
  | nil => rfl
  | cons hd tl ih => simp [List.set, ih]

theorem colIdx_append_of_mem (l l2 : List String) (x : String) (h : x ∈ l) :
    colIdx (l ++ l2) x = colIdx l x := by
  induction l with
  | nil => simp at h
  | cons c rest ih =>
    by_cases hc : c = x
    · simp [colIdx, hc]
    · have hx : x ∈ rest := by
        rcases List.mem_cons.mp h with h1 | h1
        · exact absurd h1.symm hc
        · exact h1
      simp [colIdx, hc, ih hx]

theorem colIdx_lt_length (l : List String) (x : String) (h : x ∈ l) :
    colIdx l x < l.length := by
  induction l with
  | nil => simp at h
  | cons c rest ih =>
    by_cases hc : c = x
    · simp [colIdx, hc]
    · have hx : x ∈ rest := by
        rcases List.mem_cons.mp h with h1 | h1
        · exact absurd h1.symm hc
        · exact h1
      simp only [colIdx, hc, if_false, List.length_cons]
      exact Nat.succ_lt_succ (ih hx)

theorem colIdx_append_self (l : List String) (x : String) (h : x ∉ l) :
    colIdx (l ++ [x]) x = l.length := by
  induction l with
  | nil => simp [colIdx]
  | cons c rest ih =>
    have hc : ¬c = x := fun hcx => h (hcx ▸ List.mem_cons_self c rest)
    have hx : x ∉ rest := fun hxr => h (List.mem_cons_of_mem c hxr)
    simp [colIdx, hc, ih hx]

theorem setCell_cols (df : DataFrame) (i : Nat) (c : String) (v : Cell) :
    (df.setCell i c v).cols = df.cols := by
  unfold DataFrame.setCell
  cases df.rows[i]? <;> rfl

theorem setCell_rows_length (df : DataFrame) (i : Nat) (c : String) (v : Cell) :
    (df.setCell i c v).rows.length = df.rows.length := by
  unfold DataFrame.setCell
  cases df.rows[i]? <;> simp

theorem setCell_getq_ne (df : DataFrame) (i j : Nat) (c : String) (v : Cell)
    (h : i ≠ j) : (df.setCell i c v).rows[j]? = df.rows[j]? := by
  unfold DataFrame.setCell
  cases df.rows[i]? with
  | none => rfl
  | some r => exact List.getElem?_set_ne h

theorem setCell_getq_self (df : DataFrame) (i : Nat) (c : String) (v : Cell) :
    (df.setCell i c v).rows[i]? =
      (df.rows[i]?).map fun r => r.set (colIdx df.cols c) v := by
  unfold DataFrame.setCell
  cases hr : df.rows[i]? with
  | none => simp [hr]
  | some r =>
    show (df.rows.set i (r.set (colIdx df.cols c) v))[i]? = _
    rw [getq_set_self, hr]
    rfl

/-- Value written into the destination cell of row `j` of the initialised
table, as a function of the oracle and the source cell only. -/
def rowValue (sys col_name model : String) (api : Api) (df0 : DataFrame)
    (j : Nat) : String :=
  (rowCompute sys model j (api j) (df0.cell j col_name)).1

/-- Outcome of row `j` of the initialised table. -/
def rowOut (sys col_name model : String) (api : Api) (df0 : DataFrame)
    (j : Nat) : RowOutcome :=
  (rowCompute sys model j (api j) (df0.cell j col_name)).2

/-- Characterisation of the per-row loop: over a duplicate-free list of row
indices, starting from any table that agrees with the initialised table
`df0` on those rows, the loop only rewrites the destination cell of each
visited row (from the source cell of that same row), leaves every other
row of the state as it was, and emits one outcome and one progress
fraction per visited row, in order. -/
theorem translateLoop_spec (sys col_name new_col model : String) (api : Api)
    (N : Nat) (df0 : DataFrame) :
    ∀ (L : List Nat) (d : DataFrame), L.Nodup → d.cols = df0.cols →
      d.rows.length = df0.rows.length →
      (∀ i ∈ L, d.rows[i]? = df0.rows[i]?) →
      (translateLoop sys col_name new_col model api N L d).1.cols = df0.cols ∧
      (translateLoop sys col_name new_col model api N L d).1.rows.length
        = df0.rows.length ∧
      (∀ j, (translateLoop sys col_name new_col model api N L d).1.rows[j]? =
        if j ∈ L then
          (df0.rows[j]?).map (fun r =>
            r.set (colIdx df0.cols new_col)
              (some (rowValue sys col_name model api df0 j)))
        else d.rows[j]?) ∧
      (translateLoop sys col_name new_col model api N L d).2.1
        = L.map (rowOut sys col_name model api df0) ∧
      (translateLoop sys col_name new_col model api N L d).2.2
        = L.map (fun i : Nat => ((i : ℚ) + 1) / (N : ℚ)) := by
  intro L
  induction L with
  | nil =>
    intro d _ hcols hlen _
    refine ⟨hcols, hlen, ?_, rfl, rfl⟩
    intro j
    simp [translateLoop]
  | cons idx rest ih =>
    intro d hnd hcols hlen hagree
    have hnotin : idx ∉ rest := (List.nodup_cons.mp hnd).1
    have hnd' : rest.Nodup := (List.nodup_cons.mp hnd).2
    have hcell : d.cell idx col_name = df0.cell idx col_name := by
      unfold DataFrame.cell
      rw [hagree idx (List.mem_cons_self idx rest), hcols]
    set v := rowValue sys col_name model api df0 idx with hv
    have hrow : translateRow sys col_name new_col model api idx d =
        (d.setCell idx new_col (some v),
         rowOut sys col_name model api df0 idx) := by
      unfold translateRow
      rw [hcell]
      rfl
    set d' := d.setCell idx new_col (some v) with hd'
    have hcols' : d'.cols = df0.cols := by rw [hd', setCell_cols, hcols]
    have hlen' : d'.rows.length = df0.rows.length := by
      rw [hd', setCell_rows_length, hlen]
    have hagree' : ∀ i ∈ rest, d'.rows[i]? = df0.rows[i]? := by
      intro i hi
      have hne : idx ≠ i := fun he => hnotin (he ▸ hi)
      rw [hd', setCell_getq_ne _ _ _ _ _ hne]
      exact hagree i (List.mem_cons_of_mem idx hi)
    have IH := ih d' hnd' hcols' hlen' hagree'
    have hunfold : translateLoop sys col_name new_col model api N (idx :: rest) d =
        ((translateLoop sys col_name new_col model api N rest d').1,
         rowOut sys col_name model api df0 idx ::
           (translateLoop sys col_name new_col model api N rest d').2.1,
         (((idx : ℚ) + 1) / (N : ℚ)) ::
           (translateLoop sys col_name new_col model api N rest d').2.2) := by
      show (let r := translateRow sys col_name new_col model api idx d;
            let t := translateLoop sys col_name new_col model api N rest r.1;
            (t.1, r.2 :: t.2.1, (((idx : ℚ) + 1) / (N : ℚ)) :: t.2.2)) = _
      rw [hrow]
    rw [hunfold]
    refine ⟨IH.1, IH.2.1, ?_, ?_, ?_⟩
    · intro j
      have hj := IH.2.2.1 j
      by_cases hjr : j ∈ rest
      · rw [hj, if_pos hjr, if_pos (List.mem_cons_of_mem idx hjr)]
      · by_cases hji : j = idx
        · subst hji
          rw [hj, if_neg hjr, if_pos (List.mem_cons_self j rest), hd',
            setCell_getq_self, hagree j (List.mem_cons_self j rest), hcols]
        · have hnotc : j ∉ idx :: rest := by
            intro hmem
            rcases List.mem_cons.mp hmem with h1 | h1
            · exact hji h1
            · exact hjr h1
          rw [hj, if_neg hjr, if_neg hnotc, hd',
            setCell_getq_ne _ _ _ _ _ (fun he => hji he.symm)]
    · rw [IH.2.2.2.1]
      rfl
    · rw [IH.2.2.2.2]
      rfl

theorem setCol_rows_length (df : DataFrame) (c : String) (v : Cell) :
    (df.setCol c v).rows.length = df.rows.length := by
  unfold DataFrame.setCol
  by_cases h : c ∈ df.cols <;> simp [h]

/-- Unconditional characterisation of `translate_column`: with
`df0 := df.setCol (col_name ++ "_" ++ target_lang) (some "")` the initialised
table and `n := df.rows.length`, every row below `n` of the returned table
is the corresponding row of `df0` with only its destination cell rewritten,
there is exactly one outcome and one progress fraction per row, in row
order, and the header is that of `df0`. -/
theorem translate_column_spec (df : DataFrame) (col_name : String)
    (glossary : List (String × String)) (target_lang model : String)
    (api : Api) :
    (translate_column df col_name glossary target_lang model api).df.cols
      = (df.setCol (col_name ++ "_" ++ target_lang) (some "")).cols ∧
    (translate_column df col_name glossary target_lang model api).df.rows.length
      = df.rows.length ∧
    (∀ j, (translate_column df col_name glossary target_lang model api).df.rows[j]? =
      if j < df.rows.length then
        ((df.setCol (col_name ++ "_" ++ target_lang) (some "")).rows[j]?).map
          (fun r =>
            r.set (colIdx (df.setCol (col_name ++ "_" ++ target_lang) (some "")).cols
                (col_name ++ "_" ++ target_lang))
              (some (rowValue (sys_prompt glossary) col_name model api
                (df.setCol (col_name ++ "_" ++ target_lang) (some "")) j)))
      else (df.setCol (col_name ++ "_" ++ target_lang) (some "")).rows[j]?) ∧
    (translate_column df col_name glossary target_lang model api).outcomes
      = (List.range df.rows.length).map
          (rowOut (sys_prompt glossary) col_name model api
            (df.setCol (col_name ++ "_" ++ target_lang) (some ""))) ∧
    (translate_column df col_name glossary target_lang model api).progress
      = (List.range df.rows.length).map
          (fun i : Nat => ((i : ℚ) + 1) / ((df.rows.length : ℚ))) := by
  have hn : (df.setCol (col_name ++ "_" ++ target_lang) (some "")).rows.length
      = df.rows.length := setCol_rows_length df _ _
  have H := translateLoop_spec (sys_prompt glossary) col_name
    (col_name ++ "_" ++ target_lang) model api
    (df.setCol (col_name ++ "_" ++ target_lang) (some "")).rows.length
    (df.setCol (col_name ++ "_" ++ target_lang) (some ""))
    (List.range (df.setCol (col_name ++ "_" ++ target_lang) (some "")).rows.length)
    (df.setCol (col_name ++ "_" ++ target_lang) (some ""))
    (List.nodup_range _) rfl rfl (fun _ _ => rfl)
  have Hcols : (translate_column df col_name glossary target_lang model api).df.cols
      = (df.setCol (col_name ++ "_" ++ target_lang) (some "")).cols := H.1
  have Hlen : (translate_column df col_name glossary target_lang model api).df.rows.length
      = (df.setCol (col_name ++ "_" ++ target_lang) (some "")).rows.length := H.2.1
  have Hrows : ∀ j,
      (translate_column df col_name glossary target_lang model api).df.rows[j]? =
        if j ∈ List.range (df.setCol (col_name ++ "_" ++ target_lang) (some "")).rows.length then
          ((df.setCol (col_name ++ "_" ++ target_lang) (some "")).rows[j]?).map
            (fun r =>
              r.set (colIdx (df.setCol (col_name ++ "_" ++ target_lang) (some "")).cols
                  (col_name ++ "_" ++ target_lang))
                (some (rowValue (sys_prompt glossary) col_name model api
                  (df.setCol (col_name ++ "_" ++ target_lang) (some "")) j)))
        else (df.setCol (col_name ++ "_" ++ target_lang) (some "")).rows[j]? :=
    H.2.2.1
  have Houts : (translate_column df col_name glossary target_lang model api).outcomes
      = (List.range (df.setCol (col_name ++ "_" ++ target_lang) (some "")).rows.length).map
          (rowOut (sys_prompt glossary) col_name model api
            (df.setCol (col_name ++ "_" ++ target_lang) (some ""))) := H.2.2.2.1
  have Hprog : (translate_column df col_name glossary target_lang model api).progress
      = (List.range (df.setCol (col_name ++ "_" ++ target_lang) (some "")).rows.length).map
          (fun i : Nat => ((i : ℚ) + 1) /
            (((df.setCol (col_name ++ "_" ++ target_lang) (some "")).rows.length : ℚ))) :=
    H.2.2.2.2
  rw [hn] at Hlen Houts Hprog
  refine ⟨Hcols, Hlen, ?_, Houts, Hprog⟩
  intro j
  rw [Hrows j, hn]
  by_cases hlt : j < df.rows.length
  · rw [if_pos (List.mem_range.mpr hlt), if_pos hlt]
  · rw [if_neg (fun hm => hlt (List.mem_range.mp hm)), if_neg hlt]

theorem setCol_fresh_cols (df : DataFrame) (c : String) (v : Cell)
    (h : c ∉ df.cols) : (df.setCol c v).cols = df.cols ++ [c] := by
  unfold DataFrame.setCol
  rw [if_neg h]

theorem setCol_fresh_rows (df : DataFrame) (c : String) (v : Cell)
    (h : c ∉ df.cols) : (df.setCol c v).rows = df.rows.map (fun r => r ++ [v]) := by
  unfold DataFrame.setCol
  rw [if_neg h]

/-- Appending a fresh column does not change the reading of any existing
column of a well-formed table. -/
theorem setCol_fresh_cell (df : DataFrame) (c : String) (v : Cell)
    (col : String) (hwf : df.WF) (hcol : col ∈ df.cols) (hfresh : c ∉ df.cols)
    (i : Nat) : (df.setCol c v).cell i col = df.cell i col := by
  unfold DataFrame.cell
  rw [setCol_fresh_rows df c v hfresh, setCol_fresh_cols df c v hfresh,
    List.getElem?_map]
  cases hr : df.rows[i]? with
  | none => rfl
  | some r =>
    have hrlen : r.length = df.cols.length := hwf r (List.getElem?_mem hr)
    show (r ++ [v]).getD (colIdx (df.cols ++ [c]) col) none = _
    rw [colIdx_append_of_mem df.cols [c] col hcol,
      getD_append_left r [v] _ none (hrlen ▸ colIdx_lt_length df.cols col hcol)]

/-- For a well-formed table and a fresh destination column, the destination
cell of every row below the row count holds exactly the string computed for
that row from its source cell in the initialised table. -/
theorem result_cell_new (df : DataFrame) (col_name : String)
    (glossary : List (String × String)) (target_lang model : String)
    (api : Api) (hwf : df.WF)
    (hfresh : (col_name ++ "_" ++ target_lang) ∉ df.cols)
    (i : Nat) (hi : i < df.rows.length) :
    (translate_column df col_name glossary target_lang model api).df.cell i
        (col_name ++ "_" ++ target_lang)
      = some (rowValue (sys_prompt glossary) col_name model api
          (df.setCol (col_name ++ "_" ++ target_lang) (some "")) i) := by
  have H := translate_column_spec df col_name glossary target_lang model api
  unfold DataFrame.cell
  rw [H.1, H.2.2.1 i, if_pos hi,
    setCol_fresh_rows df _ _ hfresh, setCol_fresh_cols df _ _ hfresh,
    List.getElem?_map]
  have hr : df.rows[i]? = some df.rows[i] := List.getElem?_eq_getElem hi
  rw [hr]
  have hrlen : df.rows[i].length = df.cols.length :=
    hwf df.rows[i] (List.getElem?_mem hr)
  show ((df.rows[i] ++ [some ""]).set (colIdx (df.cols ++ [_]) _) _).getD
      (colIdx (df.cols ++ [_]) _) none = _
  rw [colIdx_append_self df.cols _ hfresh, ← hrlen, set_append_len,
    getD_append_len]

/-- For a well-formed table and a fresh destination column, every cell of
every original column is unchanged by `translate_column`. -/
theorem result_cell_old (df : DataFrame) (col_name : String)
    (glossary : List (String × String)) (target_lang model : String)
    (api : Api) (hwf : df.WF)
    (hfresh : (col_name ++ "_" ++ target_lang) ∉ df.cols)
    (i : Nat) (c : String) (hc : c ∈ df.cols) :
    (translate_column df col_name glossary target_lang model api).df.cell i c
      = df.cell i c := by
  have H := translate_column_spec df col_name glossary target_lang model api
  unfold DataFrame.cell
  rw [H.1, H.2.2.1 i, setCol_fresh_rows df _ _ hfresh,
    setCol_fresh_cols df _ _ hfresh]
  by_cases hi : i < df.rows.length
  · rw [if_pos hi, List.getElem?_map]
    have hr : df.rows[i]? = some df.rows[i] := List.getElem?_eq_getElem hi
    rw [hr]
    have hrlen : df.rows[i].length = df.cols.length :=
      hwf df.rows[i] (List.getElem?_mem hr)
    show ((df.rows[i] ++ [some ""]).set (colIdx (df.cols ++ [_]) _) _).getD
        (colIdx (df.cols ++ [_]) c) none = _
    rw [colIdx_append_self df.cols _ hfresh, ← hrlen, set_append_len,
      colIdx_append_of_mem df.cols _ c hc,
      getD_append_left df.rows[i] _ _ none
        (hrlen ▸ colIdx_lt_length df.cols c hc)]
  · rw [if_neg hi, List.getElem?_map]
    have hr : df.rows[i]? = none :=
      List.getElem?_eq_none (by omega)
    rw [hr]
    rfl

/-- Concrete two-row table shared by the witnesses: one translatable row and
one blank row. -/
def dfEx : DataFrame := ⟨["src"], [[some "hi"], [some "  "]]⟩

/-- Concrete oracle that always succeeds with text carrying outer spaces. -/
def apiOkEx : Api := fun _ _ => Except.ok " Hello "

/-- Concrete oracle that always raises with message `boom`. -/
def apiErrEx : Api := fun _ _ => Except.error "boom"

/-- Claim C10: `load_glossary` validates only the top-level shape of the
parsed JSON.  Every parsed JSON object whatsoever — whatever its values,
numeric, null, list or nested object included — is accepted, its rule
count is reported in the success banner, and the mapping is returned
unchanged. -/
theorem claimC10 (fields : List (String × JsonValue)) :
    load_glossary (Except.ok (JsonValue.obj fields)) =
      Except.ok ⟨fields,
        "✅ 成功加载术语表，共" ++ toString fields.length ++ "个翻译规则"⟩ :=
  rfl

/-- Claim C6, counterexample: the claim says a parsed non-mapping fails with
a shape error distinct from the generic load error.  In the code the
`ValueError` raised for a non-dict at line 15 is itself caught by the
blanket `except Exception` at line 20, so what `load_glossary` actually
raises for a JSON array is the generic `Exception` wrapper (the same kind
and message format any other unexpected failure gets), not a distinct
shape error. -/
theorem claimC6_counterexample :
    load_glossary (Except.ok (JsonValue.arr [])) =
      Except.error (PyErr.exception (genericWrap shapeErrMsg)) ∧
    PyErr.exception (genericWrap shapeErrMsg) ≠ PyErr.valueError shapeErrMsg :=
  ⟨rfl, fun h => PyErr.noConfusion h⟩

/-- Claim C6, amended: `load_glossary` distinguishes failures as follows:
unparseable content raises the format `ValueError`; content that parses to
a non-mapping raises the generic load `Exception` wrapping the shape
message (not a distinct error kind — the shape `ValueError` is re-caught
by the blanket handler); and the blanket handler wraps any other failure
in the generic load `Exception` carrying the original message. -/
theorem claimC6 :
    (∀ m, load_glossary (Except.error m)
      = Except.error (PyErr.valueError formatErrMsg)) ∧
    (∀ v : JsonValue, v.isDict = false →
      load_glossary (Except.ok v)
        = Except.error (PyErr.exception (genericWrap shapeErrMsg))) ∧
    (∀ m, @handleExcept LoadResult (Except.error (PyErr.exception m))
      = Except.error (PyErr.exception (genericWrap m))) := by
  refine ⟨fun m => rfl, ?_, fun m => rfl⟩
  intro v hv
  cases v with
  | obj fields => simp [JsonValue.isDict] at hv
  | null => rfl
  | bool b => rfl
  | num n => rfl
  | str s => rfl
  | arr xs => rfl

theorem claimC6_witness :
    JsonValue.isDict JsonValue.null = false ∧
    load_glossary (Except.ok JsonValue.null)
      = Except.error (PyErr.exception (genericWrap shapeErrMsg)) :=
  ⟨rfl, claimC6.2.1 JsonValue.null rfl⟩

/-- Claim C7: malformed glossary content makes the run abort before any
remote call.  When the parse fails or yields a non-mapping,
`load_glossary` raises, the top-level handler of `main` shows the error
banner, `translate_column` is never invoked, and the request trace of the
whole run is empty. -/
theorem claimC7 (df : DataFrame) (col_name model : String) (api : Api) :
    (∀ m, main_translate (Except.error m) df col_name model api
        = MainOutcome.errorBanner ("❌ 处理失败：" ++ formatErrMsg) ∧
      mainRequests (main_translate (Except.error m) df col_name model api) = []) ∧
    (∀ v : JsonValue, v.isDict = false →
      main_translate (Except.ok v) df col_name model api
        = MainOutcome.errorBanner ("❌ 处理失败：" ++ genericWrap shapeErrMsg) ∧
      mainRequests (main_translate (Except.ok v) df col_name model api) = []) := by
  refine ⟨fun m => ⟨rfl, rfl⟩, ?_⟩
  intro v hv
  cases v with
  | obj fields => simp [JsonValue.isDict] at hv
  | null => exact ⟨rfl, rfl⟩
  | bool b => exact ⟨rfl, rfl⟩
  | num n => exact ⟨rfl, rfl⟩
  | str s => exact ⟨rfl, rfl⟩
  | arr xs => exact ⟨rfl, rfl⟩

theorem claimC7_witness :
    JsonValue.isDict (JsonValue.arr []) = false ∧
    (main_translate (Except.ok (JsonValue.arr [])) dfEx "src" "qwen-long" apiOkEx
        = MainOutcome.errorBanner ("❌ 处理失败：" ++ genericWrap shapeErrMsg) ∧
      mainRequests (main_translate (Except.ok (JsonValue.arr [])) dfEx "src"
        "qwen-long" apiOkEx) = []) :=
  ⟨rfl, (claimC7 dfEx "src" "qwen-long" apiOkEx).2 (JsonValue.arr []) rfl⟩

/-- The fixed text of the system prompt before the glossary rules. -/
def sysPromptHead : String :=
  "你是一名香港无印良品的電商翻譯專家，嚴格輸出英文，禁用簡體字，使用英文标点符号，保留品牌/型號原文。\n【翻譯強制規則】必須嚴格遵循以下術語表進行翻譯，術語表中的日文原文對應固定英文翻译，全文保持一致：\n"

/-- The fixed text of the system prompt after the glossary rules. -/
def sysPromptTail : String :=
  "\n若原文未在術語表中，請按香港無印良品電商習慣翻譯，確保語氣正式、符合當地用詞習慣。"

/-- The prompt construction as the specification describes
`PromptBuilder.build`: the `term：translation` pairs joined by the
full-width semicolon, embedded in the fixed template. -/
def PromptBuilder_build (G : List (String × String)) : String :=
  sysPromptHead
    ++ String.intercalate "；" (G.map (fun kv => kv.1 ++ "：" ++ kv.2))
    ++ sysPromptTail

/-- Claim C5: the system prompt is the fixed template with the glossary rules
embedded; the rule segment joins the `key：value` renderings of the pairs
of `G` with the full-width semicolon, with exactly one rule entry per pair
of `G`, positionally (so each pair contributes exactly once, and, whenever
the rendered rules are pairwise distinct, each rendered rule occurs in the
rule list exactly once).  Construction is a pure function of `G`, hence
deterministic, and the empty glossary yields the same template around an
empty rule list. -/
theorem claimC5 (G : List (String × String)) :
    sys_prompt G = PromptBuilder_build G ∧
    glossary_str G
      = String.intercalate "；" (G.map (fun kv => kv.1 ++ "：" ++ kv.2)) ∧
    (G.map (fun kv => kv.1 ++ "：" ++ kv.2)).length = G.length ∧
    (∀ i : Nat, (G.map (fun kv => kv.1 ++ "：" ++ kv.2))[i]?
      = (G[i]?).map (fun kv : String × String => kv.1 ++ "：" ++ kv.2)) ∧
    (∀ kv ∈ G, (kv.1 ++ "：" ++ kv.2) ∈ G.map (fun p => p.1 ++ "：" ++ p.2)) ∧
    (∀ kv ∈ G, (G.map (fun p => p.1 ++ "：" ++ p.2)).Nodup →
      (G.map (fun p => p.1 ++ "：" ++ p.2)).count (kv.1 ++ "：" ++ kv.2) = 1) ∧
    sys_prompt [] = sysPromptHead ++ "" ++ sysPromptTail := by
  refine ⟨?_, rfl, by simp, ?_, ?_, ?_, by rfl⟩
  · show sysPromptHead ++ glossary_str G ++ "\n"
        ++ "若原文未在術語表中，請按香港無印良品電商習慣翻譯，確保語氣正式、符合當地用詞習慣。"
      = sysPromptHead ++ glossary_str G ++ sysPromptTail
    rw [String.append_assoc (sysPromptHead ++ glossary_str G)]
    rfl
  · intro i
    simp
  · intro kv hkv
    exact List.mem_map_of_mem _ hkv
  · intro kv hkv hnd
    exact List.count_eq_one_of_mem hnd (List.mem_map_of_mem _ hkv)

theorem claimC5_witness :
    sys_prompt [("a", "b")] = PromptBuilder_build [("a", "b")] ∧
    ("a" ++ "：" ++ "b") ∈ [("a", "b")].map (fun p => p.1 ++ "：" ++ p.2) ∧
    ([("a", "b")].map (fun p => p.1 ++ "：" ++ p.2)).count ("a" ++ "：" ++ "b") = 1 := by
  refine ⟨(claimC5 [("a", "b")]).1, ?_, ?_⟩
  · exact (claimC5 [("a", "b")]).2.2.2.2.1 ("a", "b") (by simp)
  · exact (claimC5 [("a", "b")]).2.2.2.2.2.1 ("a", "b") (by simp) (by decide)

/-- Claim C1: for every table and every pattern of per-row remote failures,
the per-row loop completes every row and returns a table (one returned row
slot and one outcome per input row, whatever the oracle does), and an
exception raised for one row never changes what is written for any other
row: two oracles that agree outside row `i` produce identical result rows
and identical outcomes at every row other than `i`. -/
theorem claimC1 (df : DataFrame) (col_name : String)
    (glossary : List (String × String)) (target_lang model : String)
    (api apiB : Api) (i : Nat)
    (hagree : ∀ j, j ≠ i → api j = apiB j) :
    (translate_column df col_name glossary target_lang model api).df.rows.length
      = df.rows.length ∧
    (translate_column df col_name glossary target_lang model api).outcomes.length
      = df.rows.length ∧
    (∀ j, j ≠ i →
      (translate_column df col_name glossary target_lang model api).df.rows[j]?
        = (translate_column df col_name glossary target_lang model apiB).df.rows[j]? ∧
      (translate_column df col_name glossary target_lang model api).outcomes[j]?
        = (translate_column df col_name glossary target_lang model apiB).outcomes[j]?) := by
  have H := translate_column_spec df col_name glossary target_lang model api
  have HB := translate_column_spec df col_name glossary target_lang model apiB
  refine ⟨H.2.1, ?_, ?_⟩
  · rw [H.2.2.2.1]
    simp
  · intro j hj
    constructor
    · rw [H.2.2.1 j, HB.2.2.1 j]
      have hv : rowValue (sys_prompt glossary) col_name model api
            (df.setCol (col_name ++ "_" ++ target_lang) (some "")) j
          = rowValue (sys_prompt glossary) col_name model apiB
            (df.setCol (col_name ++ "_" ++ target_lang) (some "")) j := by
        unfold rowValue
        rw [hagree j hj]
      rw [hv]
    · rw [H.2.2.2.1, HB.2.2.2.1, List.getElem?_map, List.getElem?_map]
      by_cases hlt : j < df.rows.length
      · rw [List.getElem?_range hlt]
        have ho : rowOut (sys_prompt glossary) col_name model api
              (df.setCol (col_name ++ "_" ++ target_lang) (some "")) j
            = rowOut (sys_prompt glossary) col_name model apiB
              (df.setCol (col_name ++ "_" ++ target_lang) (some "")) j := by
          unfold rowOut
          rw [hagree j hj]
        simp only [Option.map_some']
        rw [ho]
      · rw [List.getElem?_eq_none (by simpa using hlt)]
        rfl

theorem claimC1_witness :
    (∀ j : Nat, j ≠ 0 → apiOkEx j = apiOkEx j) ∧
    ((translate_column dfEx "src" [] "translated" "qwen-long" apiOkEx).df.rows.length
        = dfEx.rows.length ∧
      (translate_column dfEx "src" [] "translated" "qwen-long" apiOkEx).outcomes.length
        = dfEx.rows.length ∧
      (∀ j, j ≠ 0 →
        (translate_column dfEx "src" [] "translated" "qwen-long" apiOkEx).df.rows[j]?
          = (translate_column dfEx "src" [] "translated" "qwen-long" apiOkEx).df.rows[j]? ∧
        (translate_column dfEx "src" [] "translated" "qwen-long" apiOkEx).outcomes[j]?
          = (translate_column dfEx "src" [] "translated" "qwen-long" apiOkEx).outcomes[j]?)) :=
  ⟨fun _ _ => rfl,
   claimC1 dfEx "src" [] "translated" "qwen-long" apiOkEx apiOkEx 0
     (fun _ _ => rfl)⟩

theorem result_outcome_at (df : DataFrame) (col_name : String)
    (glossary : List (String × String)) (target_lang model : String)
    (api : Api) (i : Nat) (hi : i < df.rows.length) :
    (translate_column df col_name glossary target_lang model api).outcomes[i]?
      = some (rowOut (sys_prompt glossary) col_name model api
          (df.setCol (col_name ++ "_" ++ target_lang) (some "")) i) := by
  have H := translate_column_spec df col_name glossary target_lang model api
  rw [H.2.2.2.1, List.getElem?_map, List.getElem?_range hi]
  rfl

theorem result_outcomes_length (df : DataFrame) (col_name : String)
    (glossary : List (String × String)) (target_lang model : String)
    (api : Api) :
    (translate_column df col_name glossary target_lang model api).outcomes.length
      = df.rows.length := by
  have H := translate_column_spec df col_name glossary target_lang model api
  rw [H.2.2.2.1]
  simp

theorem rowCompute_blank (sys model : String) (idx : Nat)
    (call : ChatRequest → Except String String) (original : Cell)
    (hblank : pyIsBlank original = true) :
    rowCompute sys model idx call original = ("", RowOutcome.skipped) := by
  unfold rowCompute
  rw [hblank]
  rfl

theorem rowCompute_ok (sys model : String) (idx : Nat)
    (call : ChatRequest → Except String String) (original : Cell)
    (content : String) (hblank : pyIsBlank original = false)
    (hok : call (rowRequest sys model original) = Except.ok content) :
    rowCompute sys model idx call original
      = (pyStrip content, RowOutcome.translated (rowRequest sys model original) content) := by
  unfold rowCompute
  rw [hblank]
  simp [hok]

theorem rowCompute_error (sys model : String) (idx : Nat)
    (call : ChatRequest → Except String String) (original : Cell)
    (e : String) (hblank : pyIsBlank original = false)
    (herr : call (rowRequest sys model original) = Except.error e) :
    rowCompute sys model idx call original
      = ("[ERROR: " ++ pyTake 200 e ++ "]",
         RowOutcome.failed (rowRequest sys model original) e
           ("⚠️ 行 " ++ toString idx ++ " 翻译失败: " ++ pyTake 100 e)) := by
  unfold rowCompute
  rw [hblank]
  simp [herr]

theorem pyTake_length_le (n : Nat) (s : String) : (pyTake n s).length ≤ n := by
  show (s.data.take n).length ≤ n
  rw [List.length_take]
  exact min_le_left _ _

/-- Claim C3: for every row whose source cell is missing or blank after
trimming, `translate_column` writes exactly the empty string into that
row's destination cell, the row is skipped, and no remote call is issued
for it (a skipped outcome carries no request). -/
theorem claimC3 (df : DataFrame) (col_name : String)
    (glossary : List (String × String)) (target_lang model : String)
    (api : Api) (i : Nat) (hwf : df.WF) (hcol : col_name ∈ df.cols)
    (hfresh : (col_name ++ "_" ++ target_lang) ∉ df.cols)
    (hi : i < df.rows.length)
    (hblank : pyIsBlank (df.cell i col_name) = true) :
    (translate_column df col_name glossary target_lang model api).df.cell i
      (col_name ++ "_" ++ target_lang) = some "" ∧
    (translate_column df col_name glossary target_lang model api).outcomes[i]?
      = some RowOutcome.skipped ∧
    RowOutcome.request? RowOutcome.skipped = none := by
  have hsrc := setCol_fresh_cell df (col_name ++ "_" ++ target_lang) (some "")
    col_name hwf hcol hfresh i
  refine ⟨?_, ?_, rfl⟩
  · rw [result_cell_new df col_name glossary target_lang model api hwf hfresh i hi]
    unfold rowValue
    rw [hsrc, rowCompute_blank _ _ _ _ _ hblank]
  · rw [result_outcome_at df col_name glossary target_lang model api i hi]
    unfold rowOut
    rw [hsrc, rowCompute_blank _ _ _ _ _ hblank]

theorem claimC3_witness :
    dfEx.WF ∧ "src" ∈ dfEx.cols ∧ ("src" ++ "_" ++ "translated") ∉ dfEx.cols ∧
    1 < dfEx.rows.length ∧ pyIsBlank (dfEx.cell 1 "src") = true ∧
    ((translate_column dfEx "src" [] "translated" "qwen-long" apiOkEx).df.cell 1
        ("src" ++ "_" ++ "translated") = some "" ∧
      (translate_column dfEx "src" [] "translated" "qwen-long" apiOkEx).outcomes[1]?
        = some RowOutcome.skipped ∧
      RowOutcome.request? RowOutcome.skipped = none) :=
  ⟨by decide, by decide, by decide, by decide, by decide,
   claimC3 dfEx "src" [] "translated" "qwen-long" apiOkEx 1 (by decide)
     (by decide) (by decide) (by decide) (by decide)⟩

/-- Claim C2: for every row whose remote call raises, `translate_column`
writes into the destination cell exactly the marker
`[ERROR: message]` with the embedded message truncated to at most 200
characters, emits a non-fatal warning embedding the message truncated to
at most 100 characters, and still processes every row of the table (one
outcome per row). -/
theorem claimC2 (df : DataFrame) (col_name : String)
    (glossary : List (String × String)) (target_lang model : String)
    (api : Api) (i : Nat) (e : String) (hwf : df.WF)
    (hcol : col_name ∈ df.cols)
    (hfresh : (col_name ++ "_" ++ target_lang) ∉ df.cols)
    (hi : i < df.rows.length)
    (hblank : pyIsBlank (df.cell i col_name) = false)
    (herr : api i (rowRequest (sys_prompt glossary) model (df.cell i col_name))
      = Except.error e) :
    (translate_column df col_name glossary target_lang model api).df.cell i
      (col_name ++ "_" ++ target_lang)
      = some ("[ERROR: " ++ pyTake 200 e ++ "]") ∧
    (pyTake 200 e).length ≤ 200 ∧
    (translate_column df col_name glossary target_lang model api).outcomes[i]?
      = some (RowOutcome.failed
          (rowRequest (sys_prompt glossary) model (df.cell i col_name)) e
          ("⚠️ 行 " ++ toString i ++ " 翻译失败: " ++ pyTake 100 e)) ∧
    (pyTake 100 e).length ≤ 100 ∧
    (translate_column df col_name glossary target_lang model api).outcomes.length
      = df.rows.length := by
  have hsrc := setCol_fresh_cell df (col_name ++ "_" ++ target_lang) (some "")
    col_name hwf hcol hfresh i
  refine ⟨?_, pyTake_length_le 200 e, ?_, pyTake_length_le 100 e,
    result_outcomes_length df col_name glossary target_lang model api⟩
  · rw [result_cell_new df col_name glossary target_lang model api hwf hfresh i hi]
    unfold rowValue
    rw [hsrc, rowCompute_error _ _ _ _ _ _ hblank herr]
  · rw [result_outcome_at df col_name glossary target_lang model api i hi]
    unfold rowOut
    rw [hsrc, rowCompute_error _ _ _ _ _ _ hblank herr]

theorem claimC2_witness :
    dfEx.WF ∧ "src" ∈ dfEx.cols ∧ ("src" ++ "_" ++ "translated") ∉ dfEx.cols ∧
    0 < dfEx.rows.length ∧ pyIsBlank (dfEx.cell 0 "src") = false ∧
    apiErrEx 0 (rowRequest (sys_prompt []) "qwen-long" (dfEx.cell 0 "src"))
      = Except.error "boom" ∧
    ((translate_column dfEx "src" [] "translated" "qwen-long" apiErrEx).df.cell 0
        ("src" ++ "_" ++ "translated") = some ("[ERROR: " ++ pyTake 200 "boom" ++ "]") ∧
      (pyTake 200 "boom").length ≤ 200 ∧
      (translate_column dfEx "src" [] "translated" "qwen-long" apiErrEx).outcomes[0]?
        = some (RowOutcome.failed
            (rowRequest (sys_prompt []) "qwen-long" (dfEx.cell 0 "src")) "boom"
            ("⚠️ 行 " ++ toString 0 ++ " 翻译失败: " ++ pyTake 100 "boom")) ∧
      (pyTake 100 "boom").length ≤ 100 ∧
      (translate_column dfEx "src" [] "translated" "qwen-long" apiErrEx).outcomes.length
        = dfEx.rows.length) :=
  ⟨by decide, by decide, by decide, by decide, by decide, rfl,
   claimC2 dfEx "src" [] "translated" "qwen-long" apiErrEx 0 "boom" (by decide)
     (by decide) (by decide) (by decide) (by decide) rfl⟩

/-- Claim C9: for every row with a non-empty source cell whose remote call
succeeds, `translate_column` issues exactly one chat completion call for
that row, carrying exactly two messages — the shared system prompt and the
per-row user prompt — with temperature 0.3 and top_p 0.5, and writes the
trimmed text of the first completion choice into the destination cell. -/
theorem claimC9 (df : DataFrame) (col_name : String)
    (glossary : List (String × String)) (target_lang model : String)
    (api : Api) (i : Nat) (content : String) (hwf : df.WF)
    (hcol : col_name ∈ df.cols)
    (hfresh : (col_name ++ "_" ++ target_lang) ∉ df.cols)
    (hi : i < df.rows.length)
    (hblank : pyIsBlank (df.cell i col_name) = false)
    (hok : api i (rowRequest (sys_prompt glossary) model (df.cell i col_name))
      = Except.ok content) :
    (translate_column df col_name glossary target_lang model api).df.cell i
      (col_name ++ "_" ++ target_lang) = some (pyStrip content) ∧
    (translate_column df col_name glossary target_lang model api).outcomes[i]?
      = some (RowOutcome.translated
          (rowRequest (sys_prompt glossary) model (df.cell i col_name)) content) ∧
    RowOutcome.request? (RowOutcome.translated
        (rowRequest (sys_prompt glossary) model (df.cell i col_name)) content)
      = some (rowRequest (sys_prompt glossary) model (df.cell i col_name)) ∧
    (rowRequest (sys_prompt glossary) model (df.cell i col_name)).messages
      = [⟨"system", sys_prompt glossary⟩,
         ⟨"user", user_prompt (df.cell i col_name)⟩] ∧
    (rowRequest (sys_prompt glossary) model (df.cell i col_name)).messages.length
      = 2 ∧
    (rowRequest (sys_prompt glossary) model (df.cell i col_name)).temperature
      = 3/10 ∧
    (rowRequest (sys_prompt glossary) model (df.cell i col_name)).top_p = 1/2 ∧
    (rowRequest (sys_prompt glossary) model (df.cell i col_name)).model = model := by
  have hsrc := setCol_fresh_cell df (col_name ++ "_" ++ target_lang) (some "")
    col_name hwf hcol hfresh i
  refine ⟨?_, ?_, rfl, rfl, rfl, rfl, rfl, rfl⟩
  · rw [result_cell_new df col_name glossary target_lang model api hwf hfresh i hi]
    unfold rowValue
    rw [hsrc, rowCompute_ok _ _ _ _ _ _ hblank hok]
  · rw [result_outcome_at df col_name glossary target_lang model api i hi]
    unfold rowOut
    rw [hsrc, rowCompute_ok _ _ _ _ _ _ hblank hok]

theorem claimC9_witness :
    dfEx.WF ∧ "src" ∈ dfEx.cols ∧ ("src" ++ "_" ++ "translated") ∉ dfEx.cols ∧
    0 < dfEx.rows.length ∧ pyIsBlank (dfEx.cell 0 "src") = false ∧
    apiOkEx 0 (rowRequest (sys_prompt []) "qwen-long" (dfEx.cell 0 "src"))
      = Except.ok " Hello " ∧
    ((translate_column dfEx "src" [] "translated" "qwen-long" apiOkEx).df.cell 0
        ("src" ++ "_" ++ "translated") = some (pyStrip " Hello ") ∧
      (translate_column dfEx "src" [] "translated" "qwen-long" apiOkEx).outcomes[0]?
        = some (RowOutcome.translated
            (rowRequest (sys_prompt []) "qwen-long" (dfEx.cell 0 "src")) " Hello ") ∧
      RowOutcome.request? (RowOutcome.translated
          (rowRequest (sys_prompt []) "qwen-long" (dfEx.cell 0 "src")) " Hello ")
        = some (rowRequest (sys_prompt []) "qwen-long" (dfEx.cell 0 "src")) ∧
      (rowRequest (sys_prompt []) "qwen-long" (dfEx.cell 0 "src")).messages
        = [⟨"system", sys_prompt []⟩, ⟨"user", user_prompt (dfEx.cell 0 "src")⟩] ∧
      (rowRequest (sys_prompt []) "qwen-long" (dfEx.cell 0 "src")).messages.length
        = 2 ∧
      (rowRequest (sys_prompt []) "qwen-long" (dfEx.cell 0 "src")).temperature
        = 3/10 ∧
      (rowRequest (sys_prompt []) "qwen-long" (dfEx.cell 0 "src")).top_p = 1/2 ∧
      (rowRequest (sys_prompt []) "qwen-long" (dfEx.cell 0 "src")).model
        = "qwen-long") :=
  ⟨by decide, by decide, by decide, by decide, by decide, rfl,
   claimC9 dfEx "src" [] "translated" "qwen-long" apiOkEx 0 " Hello " (by decide)
     (by decide) (by decide) (by decide) (by decide) rfl⟩

/-- Claim C8: for every non-empty table the reported progress sequence has
one entry per row, the entry after row `i` equals `(i + 1) / total_rows`
(rows processed over total rows), and the sequence is strictly increasing
from a first value greater than zero up to exactly 1 at the last row.
Fractions are modelled as exact rationals. -/
theorem claimC8 (df : DataFrame) (col_name : String)
    (glossary : List (String × String)) (target_lang model : String)
    (api : Api) (h : 0 < df.rows.length) :
    (translate_column df col_name glossary target_lang model api).progress.length
      = df.rows.length ∧
    (∀ i, i < df.rows.length →
      (translate_column df col_name glossary target_lang model api).progress[i]?
        = some (((i : ℚ) + 1) / (df.rows.length : ℚ))) ∧
    List.Chain' (· < ·)
      (translate_column df col_name glossary target_lang model api).progress ∧
    (translate_column df col_name glossary target_lang model api).progress[0]?
      = some (1 / (df.rows.length : ℚ)) ∧
    (0 : ℚ) < 1 / (df.rows.length : ℚ) ∧
    (translate_column df col_name glossary target_lang model
        api).progress[df.rows.length - 1]?
      = some 1 := by
  have H := translate_column_spec df col_name glossary target_lang model api
  have Hp := H.2.2.2.2
  have hn : (0 : ℚ) < (df.rows.length : ℚ) := by exact_mod_cast h
  refine ⟨?_, ?_, ?_, ?_, ?_, ?_⟩
  · rw [Hp]
    simp
  · intro i hi
    rw [Hp, List.getElem?_map, List.getElem?_range hi]
    rfl
  · rw [Hp]
    refine List.Pairwise.chain' (List.pairwise_map.mpr
      (List.Pairwise.imp ?_ (List.pairwise_lt_range _)))
    intro a b hab
    have hc : ((a : ℚ) + 1) < ((b : ℚ) + 1) := by
      have : (a : ℚ) < (b : ℚ) := by exact_mod_cast hab
      linarith
    gcongr
  · rw [Hp, List.getElem?_map, List.getElem?_range h]
    norm_num
  · positivity
  · rw [Hp, List.getElem?_map, List.getElem?_range (by omega)]
    have hone : ((df.rows.length - 1 : ℕ) : ℚ) + 1 = (df.rows.length : ℚ) := by
      rw [Nat.cast_sub h]
      ring
    rw [Option.map_some', hone, div_self (ne_of_gt hn)]

theorem claimC8_witness :
    0 < dfEx.rows.length ∧
    ((translate_column dfEx "src" [] "translated" "qwen-long" apiOkEx).progress.length
        = dfEx.rows.length ∧
      (∀ i, i < dfEx.rows.length →
        (translate_column dfEx "src" [] "translated" "qwen-long" apiOkEx).progress[i]?
          = some (((i : ℚ) + 1) / (dfEx.rows.length : ℚ))) ∧
      List.Chain' (· < ·)
        (translate_column dfEx "src" [] "translated" "qwen-long" apiOkEx).progress ∧
      (translate_column dfEx "src" [] "translated" "qwen-long" apiOkEx).progress[0]?
        = some (1 / (dfEx.rows.length : ℚ)) ∧
      (0 : ℚ) < 1 / (dfEx.rows.length : ℚ) ∧
      (translate_column dfEx "src" [] "translated" "qwen-long"
          apiOkEx).progress[dfEx.rows.length - 1]?
        = some 1) :=
  ⟨by decide,
   claimC8 dfEx "src" [] "translated" "qwen-long" apiOkEx (by decide)⟩

/-- Concrete table whose header already contains the default destination name
for source column `x`, with a value stored under it. -/
def dfClash : DataFrame := ⟨["x", "x_translated"], [[some "hi", some "old"]]⟩

/-- Concrete oracle that always succeeds with the text `T`. -/
def apiT : Api := fun _ _ => Except.ok "T"

/-- Claim C4, counterexample: the claim quantifies over every table, but on a
table that already has a column named `x_translated`, the pandas column
assignment overwrites that column in place: the returned table has the
same two columns (no new column is added) and the original value `old`
stored under `x_translated` is destroyed. -/
theorem claimC4_counterexample :
    dfClash.cell 0 "x_translated" = some "old" ∧
    (translate_column dfClash "x" [] "translated" "qwen-long" apiT).df.cols
      = ["x", "x_translated"] ∧
    (translate_column dfClash "x" [] "translated" "qwen-long" apiT).df.cols.length
      = 2 ∧
    (translate_column dfClash "x" [] "translated" "qwen-long" apiT).df.cell 0
      "x_translated" = some "T" :=
  ⟨rfl, by decide, by decide, by decide⟩

/-- Claim C4, amended: for every well-formed table whose header does not
already contain the destination name `col_name + "_" + target_lang`,
`translate_column` returns a table with all original columns and their
cell values unchanged, plus exactly one new column of that name appended,
holding a (string) value for every row, with the same row count and row
order as the input. -/
theorem claimC4 (df : DataFrame) (col_name : String)
    (glossary : List (String × String)) (target_lang model : String)
    (api : Api) (hwf : df.WF) (hcol : col_name ∈ df.cols)
    (hfresh : (col_name ++ "_" ++ target_lang) ∉ df.cols) :
    (translate_column df col_name glossary target_lang model api).df.cols
      = df.cols ++ [col_name ++ "_" ++ target_lang] ∧
    (translate_column df col_name glossary target_lang model api).df.rows.length
      = df.rows.length ∧
    (∀ i c, c ∈ df.cols →
      (translate_column df col_name glossary target_lang model api).df.cell i c
        = df.cell i c) ∧
    (∀ i, i < df.rows.length → ∃ s : String,
      (translate_column df col_name glossary target_lang model api).df.cell i
        (col_name ++ "_" ++ target_lang) = some s) := by
  have H := translate_column_spec df col_name glossary target_lang model api
  refine ⟨?_, H.2.1, ?_, ?_⟩
  · rw [H.1, setCol_fresh_cols df _ _ hfresh]
  · intro i c hc
    exact result_cell_old df col_name glossary target_lang model api hwf hfresh i c hc
  · intro i hi
    exact ⟨_, result_cell_new df col_name glossary target_lang model api hwf hfresh i hi⟩

theorem claimC4_witness :
    dfEx.WF ∧ "src" ∈ dfEx.cols ∧ ("src" ++ "_" ++ "translated") ∉ dfEx.cols ∧
    ((translate_column dfEx "src" [] "translated" "qwen-long" apiOkEx).df.cols
        = dfEx.cols ++ ["src" ++ "_" ++ "translated"] ∧
      (translate_column dfEx "src" [] "translated" "qwen-long" apiOkEx).df.rows.length
        = dfEx.rows.length ∧
      (∀ i c, c ∈ dfEx.cols →
        (translate_column dfEx "src" [] "translated" "qwen-long" apiOkEx).df.cell i c
          = dfEx.cell i c) ∧
      (∀ i, i < dfEx.rows.length → ∃ s : String,
        (translate_column dfEx "src" [] "translated" "qwen-long" apiOkEx).df.cell i
          ("src" ++ "_" ++ "translated") = some s)) :=
  ⟨by decide, by decide, by decide,
   claimC4 dfEx "src" [] "translated" "qwen-long" apiOkEx (by decide) (by decide)
     (by decide)⟩
